import Mathlib

/-!
Shallow embedding of `src/bot.py` (a Telegram broadcast bot).

The bot keeps a set of integer user identifiers (`users`), persisted as a
JSON list in a flat file (`users.json`).  Handlers: `start` adds the sender
and saves; `admin` compares the sender against `int(os.getenv('ADMIN_ID','0'))`
and either denies, shows a panel, or broadcasts; `broadcast_to_users` iterates
a copy of the set, counts successes and failures, discards an identifier when
the failure text (lowercased) contains "bot was blocked" or "user not found",
then saves the set and edits a status message with the final counts.

Modelling conventions:
* Python ints are `Int`; the in-memory store is `Finset Int`.
* The delivery outcome of `context.bot.send_message` for each identifier is an
  oracle `fail : Int → Option String` (`none` = success, `some e` = an
  exception whose `str(e)` is `e`).
* The backing file is a `FileState`: missing, unreadable (open/read raised),
  malformed (not valid JSON), or holding a parsed JSON value.  JSON values are
  modelled by `Json` below (floats are omitted: no claim involves them, and
  integer-valued contents are what the program ever writes).
* `set(x)` on a parsed JSON value is `pySetOf`: it succeeds on arrays of
  hashable (atomic) elements, on strings (yielding one-character strings) and
  on objects (yielding the key set), and raises `TypeError` — modelled as
  `none` — on null/bool/number and on arrays containing an unhashable
  (array or object) element.
-/

namespace SMBot

/-- Atomic (hashable) JSON values: the only values a Python `set` can hold. -/
inductive JsonAtom where
  | anull : JsonAtom
  | abool : Bool → JsonAtom
  | aint : Int → JsonAtom
  | astr : String → JsonAtom
deriving DecidableEq

/-- Parsed JSON values (floats omitted; see module docstring). -/
inductive Json where
  | atom : JsonAtom → Json
  | jarr : List Json → Json
  | jobj : List (String × Json) → Json

/-- State of the backing file `users.json` as seen by `load_users`. -/
inductive FileState where
  | missing : FileState
  | unreadable : FileState
  | malformed : FileState
  | content : Json → FileState

/-- Extract the atoms of a JSON array; `none` when some element is unhashable
(`set(...)` would raise `TypeError` on it). -/
def atomsOf : List Json → Option (List JsonAtom)
  | [] => some []
  | Json.atom a :: rest => (atomsOf rest).map (a :: ·)
  | Json.jarr _ :: _ => none
  | Json.jobj _ :: _ => none

/-- The one-character strings making up `s`, as JSON atoms: iterating a Python
string yields its characters as length-one strings. -/
def charAtoms (s : String) : List JsonAtom :=
  s.toList.map (fun c => JsonAtom.astr (String.mk [c]))

/-- Python `set(j)` on a parsed JSON value `j`: `none` models `TypeError`. -/
def pySetOf : Json → Option (Finset JsonAtom)
  | Json.atom (JsonAtom.astr s) => some (charAtoms s).toFinset
  | Json.atom _ => none
  | Json.jarr l => (atomsOf l).map List.toFinset
  | Json.jobj l => some ((l.map (fun p => JsonAtom.astr p.1)).toFinset)

/-- Model of `load_users` (src/bot.py lines 18–27): `set(json.load(f))` when the file
exists and everything succeeds; every exception is caught and yields `set()`. -/
def load_users : FileState → Finset JsonAtom
  | FileState.missing => ∅
  | FileState.unreadable => ∅
  | FileState.malformed => ∅
  | FileState.content j => (pySetOf j).getD ∅

/-- The file content written by `save_users` (src/bot.py lines 29–35):
`json.dump(list(users), f)`, where `l` is the enumeration `list(users)`
(an arbitrary-order duplicate-free listing of the set). -/
def saveContent (l : List Int) : Json :=
  Json.jarr (l.map (fun n => Json.atom (JsonAtom.aint n)))

/-- Whether a JSON value is an array of integers (the shape the spec's
"sequence of integers" refers to). -/
def isIntArray : Json → Bool
  | Json.jarr l =>
      l.all (fun j => match j with
        | Json.atom (JsonAtom.aint _) => true
        | _ => false)
  | _ => false

/-- No two adjacent underscores (part of Python's literal grammar for `int`). -/
def noDoubleUnderscore : List Char → Bool
  | '_' :: '_' :: _ => false
  | _ :: rest => noDoubleUnderscore rest
  | [] => true

/-- A valid digit run for Python `int(str)`: nonempty, ASCII digits with
single underscores allowed strictly between digits. -/
def validDigits (l : List Char) : Bool :=
  match l with
  | [] => false
  | c :: _ =>
      c.isDigit &&
      (match l.getLast? with
       | some d => d.isDigit
       | none => false) &&
      l.all (fun x => x.isDigit || x == '_') &&
      noDoubleUnderscore l

/-- Decimal value of a digit run (underscores skipped). -/
def natOfDigits (l : List Char) : Nat :=
  (l.filter (fun c => c != '_')).foldl
    (fun acc c => acc * 10 + (c.toNat - Char.toNat '0')) 0

/-- Strip leading and trailing whitespace characters. -/
def trimChars (l : List Char) : List Char :=
  ((l.dropWhile Char.isWhitespace).reverse.dropWhile Char.isWhitespace).reverse

/-- Python `int(s)` for decimal strings: strip surrounding whitespace, allow
one optional sign, then a valid digit run; `none` models a raised
`ValueError`.  (Non-ASCII digits and exotic whitespace are not modelled; no
claim uses them.) -/
def pyInt (s : String) : Option Int :=
  match trimChars s.toList with
  | '+' :: rest => if validDigits rest then some (Int.ofNat (natOfDigits rest)) else none
  | '-' :: rest => if validDigits rest then some (-(Int.ofNat (natOfDigits rest))) else none
  | rest => if validDigits rest then some (Int.ofNat (natOfDigits rest)) else none

/-- Model of `int(os.getenv('ADMIN_ID', '0'))` (src/bot.py line 66): the environment
variable's value at the moment the handler runs, defaulted to `"0"` when
absent, parsed by `int` (`none` models the parse raising). -/
def envAdminId (env : Option String) : Option Int :=
  pyInt (env.getD "0")

/-- What the `admin` handler did with an update: raised inside the handler
(`int` failed), replied the denial, replied the panel text, or invoked the
broadcaster with the joined message. -/
inductive AdminAction where
  | raised : AdminAction
  | denied : AdminAction
  | panel : Nat → AdminAction
  | broadcasted : String → AdminAction
deriving DecidableEq

/-- Dispatch of the `admin` handler (src/bot.py lines 63–82): compute
`admin_id` from the current environment, deny non-admins, show the panel when
`context.args` is empty, otherwise broadcast `' '.join(context.args)`. -/
def admin (env : Option String) (u : Int) (args : List String) (store : Finset Int) :
    AdminAction :=
  match envAdminId env with
  | none => AdminAction.raised
  | some adminId =>
      if u ≠ adminId then AdminAction.denied
      else if args.isEmpty then AdminAction.panel store.card
      else AdminAction.broadcasted (String.intercalate " " args)

/-- Model of `start` (src/bot.py lines 40–47), restricted to its store effect:
`users.add(user_id); save_users(users)`.  Returns the mutated store and the
set passed to `save_users` (the reply text does not touch the store). -/
def start (u : Int) (store : Finset Int) : Finset Int × Finset Int :=
  let store' := insert u store
  (store', store')

/-- Python's `in` on strings: `needle in hay` ⟺ some suffix of `hay` starts
with `needle`. -/
def strContains (hay needle : String) : Bool :=
  hay.toList.tails.any (fun t => needle.toList.isPrefixOf t)

/-- Model of `str.lower()`, restricted to ASCII letters (both recognized substrings
and all error texts in the claims are ASCII). -/
def lowerStr (s : String) : String :=
  String.mk (s.toList.map Char.toLower)

/-- Classification on src/bot.py line 100:
`"bot was blocked" in str(e).lower() or "user not found" in str(e).lower()`. -/
def permanentFailure (e : String) : Bool :=
  strContains (lowerStr e) "bot was blocked" || strContains (lowerStr e) "user not found"

/-- Whether the delivery outcome for `u` makes the loop discard `u`:
delivery failed and the error text matches a permanent-failure substring. -/
def permDrop (fail : Int → Option String) (u : Int) : Bool :=
  match fail u with
  | none => false
  | some e => permanentFailure e

/-- Outcome of the broadcast loop (src/bot.py lines 86–101): the two
counters, the live store after the loop, and the identifiers attempted in
order. -/
structure BroadcastOutcome where
  successful_sends : Nat
  failed_sends : Nat
  users : Finset Int
  attempted : List Int
deriving DecidableEq

/-- The `for user_id in users.copy():` loop (src/bot.py lines 92–101) over the
snapshot list `l`, threading the live store `st`: on success increment the
success counter; on failure increment the failure counter and `discard` the
identifier when the error text matches a permanent-failure substring. -/
def broadcastLoop (fail : Int → Option String) : List Int → Finset Int → BroadcastOutcome
  | [], st => ⟨0, 0, st, []⟩
  | u :: rest, st =>
      match fail u with
      | none =>
          let r := broadcastLoop fail rest st
          ⟨r.successful_sends + 1, r.failed_sends, r.users, u :: r.attempted⟩
      | some e =>
          let st' := if permanentFailure e then st.erase u else st
          let r := broadcastLoop fail rest st'
          ⟨r.successful_sends, r.failed_sends + 1, r.users, u :: r.attempted⟩

/-- The final status text (src/bot.py lines 107–113). -/
def result_text (successful failed active : Nat) : String :=
  "✅ Broadcast completed!\n\n📊 Results:\n• Successful: " ++ toString successful ++
    "\n• Failed: " ++ toString failed ++ "\n• Active users: " ++ toString active

/-- Result of `broadcast_to_users` (src/bot.py lines 84–115): the loop
outcome over the snapshot, the set passed to `save_users` after the loop, and
the text the status message is edited to. -/
structure BroadcastResult where
  outcome : BroadcastOutcome
  saved : Finset Int
  statusText : String
deriving DecidableEq

/-- Model of `broadcast_to_users` over a given snapshot `l` of the store (Python's
`users.copy()` iterates each element once in an unspecified order; theorems
quantify over the enumeration). -/
def broadcast_to_users (fail : Int → Option String) (l : List Int) (st : Finset Int) :
    BroadcastResult :=
  let r := broadcastLoop fail l st
  ⟨r, r.users, result_text r.successful_sends r.failed_sends r.users.card⟩

/-- One admin update followed, when authorized with arguments, by the
broadcast it triggers: returns the handler's action and the store after the
update is fully processed.  The broadcast snapshot is a canonical enumeration
of the store (`users.copy()`). -/
def adminStep (env : Option String) (u : Int) (args : List String) (store : Finset Int)
    (fail : Int → Option String) : AdminAction × Finset Int :=
  match admin env u args store with
  | AdminAction.broadcasted m =>
      (AdminAction.broadcasted m,
        (broadcast_to_users fail (store.sort (· ≤ ·)) store).saved)
  | a => (a, store)

/-- A process run for the environment-read claim: the environment visible at
startup and the environment visible when the admin command is handled. -/
structure AdminEnvRun where
  startupEnv : Option String
  handlerEnv : Option String

/-- The `admin` handler's action during a run: the code reads `ADMIN_ID`
inside the handler, so only the handler-time environment enters. -/
def adminActionOfRun (r : AdminEnvRun) (u : Int) (args : List String)
    (store : Finset Int) : AdminAction :=
  admin r.handlerEnv u args store

/-- Delivery outcomes of the spec's broadcast scenario: success for every
identifier except 2, which fails with "bot was blocked by the user". -/
def failC2 : Int → Option String :=
  fun u => if u = 2 then some "bot was blocked by the user" else none

/-! ### Helper lemmas -/

theorem atomsOf_map_atom (l : List JsonAtom) :
    atomsOf (l.map Json.atom) = some l := by
  induction l with
  | nil => rfl
  | cons a rest ih => simp [atomsOf, ih]

theorem toFinset_map_eq_image {α β : Type} [DecidableEq α] [DecidableEq β]
    (f : α → β) (l : List α) : (l.map f).toFinset = l.toFinset.image f := by
  ext b
  simp

/-! ### C3: save/load round trip -/

/-- C3: saving any set of integers `s` (through any enumeration `l` of it,
since `list(users)` enumerates the set in an arbitrary order) and loading the
resulting file content back yields exactly the integers of `s` (as the
integer atoms of the loaded set): the round trip is order-independent. -/
theorem save_load_roundtrip (s : Finset Int) (l : List Int) (h : l.toFinset = s) :
    load_users (FileState.content (saveContent l)) = s.image JsonAtom.aint := by
  have hmap : l.map (fun n => Json.atom (JsonAtom.aint n)) =
      (l.map JsonAtom.aint).map Json.atom := by
    simp [List.map_map]
  simp only [load_users, saveContent, pySetOf, hmap, atomsOf_map_atom, Option.map_some',
    Option.getD_some]
  rw [toFinset_map_eq_image, h]

/-- Witness for C3 at `s = {1,2}`, enumerated as `[2,1]`. -/
theorem save_load_roundtrip_witness :
    ([2, 1] : List Int).toFinset = ({1, 2} : Finset Int) ∧
    load_users (FileState.content (saveContent [2, 1])) =
      ({1, 2} : Finset Int).image JsonAtom.aint :=
  ⟨by decide, save_load_roundtrip {1, 2} [2, 1] (by decide)⟩

/-! ### C4: totality of load, and what non-integer content yields -/

/-- C4 (counterexample): the file content `["a"]` is valid JSON but not a
sequence of integers, yet `load_users` returns the non-empty set `{"a"}`
rather than the empty set, refuting "any content that does not decode to a
set of integers yields the empty set". -/
theorem load_users_nonint_counterexample :
    isIntArray (Json.jarr [Json.atom (JsonAtom.astr "a")]) = false ∧
    load_users (FileState.content (Json.jarr [Json.atom (JsonAtom.astr "a")])) ≠
      (∅ : Finset JsonAtom) := by
  decide

/-- C4 (amended): `load_users` is total — every exception path of the code is
caught and mapped to a set.  A JSON array of hashable values yields the set of
those values whatever their type (so an array of integers yields exactly that
integer set, but an array of non-integers yields those values, not `∅`); a
JSON string yields its one-character strings; a JSON object yields its key
set; and the file being missing, unreadable or malformed, the content being
null, a boolean or a number, or the array containing an unhashable element,
all yield the empty set. -/
theorem load_users_total_characterization :
    (∀ l : List JsonAtom,
      load_users (FileState.content (Json.jarr (l.map Json.atom))) = l.toFinset) ∧
    load_users FileState.missing = ∅ ∧
    load_users FileState.unreadable = ∅ ∧
    load_users FileState.malformed = ∅ ∧
    load_users (FileState.content (Json.atom JsonAtom.anull)) = ∅ ∧
    (∀ b, load_users (FileState.content (Json.atom (JsonAtom.abool b))) = ∅) ∧
    (∀ n, load_users (FileState.content (Json.atom (JsonAtom.aint n))) = ∅) ∧
    (∀ s, load_users (FileState.content (Json.atom (JsonAtom.astr s))) =
      (charAtoms s).toFinset) ∧
    (∀ x rest, load_users (FileState.content (Json.jarr (Json.jarr x :: rest))) = ∅) ∧
    (∀ x rest, load_users (FileState.content (Json.jarr (Json.jobj x :: rest))) = ∅) ∧
    (∀ l, load_users (FileState.content (Json.jobj l)) =
      (l.map (fun p => JsonAtom.astr p.1)).toFinset) := by
  refine ⟨fun l => ?_, rfl, rfl, rfl, rfl, fun b => rfl, fun n => rfl, fun s => rfl,
    fun x rest => rfl, fun x rest => rfl, fun l => rfl⟩
  simp [load_users, pySetOf, atomsOf_map_atom]

/-! ### C6: the start handler -/

/-- C6: `/start` from an identifier `u` not yet stored grows the store by
exactly one and the store then contains `u`; a second `/start` from the same
`u` leaves the size unchanged; in both cases the set handed to `save_users`
is the mutated store. -/
theorem start_adds_and_persists (u : Int) (store : Finset Int) (h : u ∉ store) :
    (start u store).1.card = store.card + 1 ∧
    u ∈ (start u store).1 ∧
    (start u store).2 = (start u store).1 ∧
    (start u (start u store).1).1.card = (start u store).1.card ∧
    (start u (start u store).1).2 = (start u (start u store).1).1 := by
  refine ⟨?_, ?_, rfl, ?_, rfl⟩
  · simp [start, Finset.card_insert_of_not_mem h]
  · simp [start]
  · simp [start, Finset.insert_idem]

/-- Witness for C6 at `u = 5`, empty initial store. -/
theorem start_adds_and_persists_witness :
    (5 : Int) ∉ (∅ : Finset Int) ∧
    ((start 5 (∅ : Finset Int)).1.card = (∅ : Finset Int).card + 1 ∧
      (5 : Int) ∈ (start 5 (∅ : Finset Int)).1 ∧
      (start 5 (∅ : Finset Int)).2 = (start 5 (∅ : Finset Int)).1 ∧
      (start 5 (start 5 (∅ : Finset Int)).1).1.card = (start 5 (∅ : Finset Int)).1.card ∧
      (start 5 (start 5 (∅ : Finset Int)).1).2 = (start 5 (start 5 (∅ : Finset Int)).1).1) :=
  ⟨by decide, start_adds_and_persists 5 ∅ (by decide)⟩

/-! ### C5, C9: the admin handler denies non-admins -/

/-- Shared helper: whenever the environment parses to an admin id `a` and the
sender differs from it, the whole admin update resolves to the denial with the
store untouched. -/
theorem adminStep_denied_of_ne (env : Option String) (a u : Int) (args : List String)
    (store : Finset Int) (fail : Int → Option String)
    (hparse : envAdminId env = some a) (hne : u ≠ a) :
    adminStep env u args store fail = (AdminAction.denied, store) := by
  simp [adminStep, admin, hparse, hne]

/-- C5: an admin command from any identifier `u` other than the configured
admin identifier `a` (whatever the argument text and delivery outcomes) is
answered with the authorization denial; the Broadcaster is not invoked and
the User Store is unchanged. -/
theorem admin_denies_nonadmin (env : Option String) (a u : Int) (args : List String)
    (store : Finset Int) (fail : Int → Option String)
    (hparse : envAdminId env = some a) (hne : u ≠ a) :
    adminStep env u args store fail = (AdminAction.denied, store) :=
  adminStep_denied_of_ne env a u args store fail hparse hne

/-- Witness for C5: admin id 5, sender 7, with and without argument text. -/
theorem admin_denies_nonadmin_witness :
    envAdminId (some "5") = some 5 ∧ (7 : Int) ≠ 5 ∧
    adminStep (some "5") 7 ["hi", "there"] ({1, 2} : Finset Int) (fun _ => none) =
      (AdminAction.denied, ({1, 2} : Finset Int)) :=
  ⟨by decide, by decide,
    admin_denies_nonadmin (some "5") 5 7 ["hi", "there"] {1, 2} (fun _ => none)
      (by decide) (by decide)⟩

/-- C9: with the admin-identifier environment variable absent, the default
`'0'` parses to admin id `0`, so every sender with a nonzero identifier is
denied and no broadcast is triggered. -/
theorem admin_default_denies_nonzero (u : Int) (args : List String)
    (store : Finset Int) (fail : Int → Option String) (h : u ≠ 0) :
    adminStep none u args store fail = (AdminAction.denied, store) :=
  adminStep_denied_of_ne none 0 u args store fail (by decide) h

/-- Witness for C9 at sender 7 with argument text present. -/
theorem admin_default_denies_nonzero_witness :
    (7 : Int) ≠ 0 ∧
    adminStep none 7 ["msg"] ({3} : Finset Int) (fun _ => none) =
      (AdminAction.denied, ({3} : Finset Int)) :=
  ⟨by decide, admin_default_denies_nonzero 7 ["msg"] {3} (fun _ => none) (by decide)⟩

/-! ### C8: when the admin identifier is read from the environment -/

/-- C8 (counterexample): the code reads `ADMIN_ID` inside the handler, not
once at startup.  Two runs that both start with `ADMIN_ID=5` but whose
environments differ when the command from sender 7 is handled produce
different authorization decisions (denial vs. broadcast). -/
theorem admin_id_startup_read_counterexample :
    (AdminEnvRun.mk (some "5") (some "5")).startupEnv =
      (AdminEnvRun.mk (some "5") (some "7")).startupEnv ∧
    adminActionOfRun (AdminEnvRun.mk (some "5") (some "5")) 7 ["x"] (∅ : Finset Int) ≠
      adminActionOfRun (AdminEnvRun.mk (some "5") (some "7")) 7 ["x"] (∅ : Finset Int) := by
  exact ⟨rfl, by decide⟩

/-- C8 (amended): the admin identifier is read from the environment at the
time each admin command is handled; two runs whose environments agree at that
moment produce identical decisions, regardless of their startup environments. -/
theorem admin_id_read_at_handling_time (r1 r2 : AdminEnvRun) (u : Int)
    (args : List String) (store : Finset Int)
    (h : r1.handlerEnv = r2.handlerEnv) :
    adminActionOfRun r1 u args store = adminActionOfRun r2 u args store := by
  simp [adminActionOfRun, h]

/-- Witness for the amended C8: different startup environments, same
handler-time environment. -/
theorem admin_id_read_at_handling_time_witness :
    (AdminEnvRun.mk none (some "5")).handlerEnv =
      (AdminEnvRun.mk (some "9") (some "5")).handlerEnv ∧
    adminActionOfRun (AdminEnvRun.mk none (some "5")) 3 [] (∅ : Finset Int) =
      adminActionOfRun (AdminEnvRun.mk (some "9") (some "5")) 3 [] (∅ : Finset Int) :=
  ⟨rfl, admin_id_read_at_handling_time (AdminEnvRun.mk none (some "5"))
    (AdminEnvRun.mk (some "9") (some "5")) 3 [] ∅ rfl⟩

/-! ### Broadcast loop: helper lemmas -/

theorem broadcastLoop_cons_none (fail : Int → Option String) (v : Int) (rest : List Int)
    (st : Finset Int) (hf : fail v = none) :
    broadcastLoop fail (v :: rest) st =
      ⟨(broadcastLoop fail rest st).successful_sends + 1,
        (broadcastLoop fail rest st).failed_sends,
        (broadcastLoop fail rest st).users,
        v :: (broadcastLoop fail rest st).attempted⟩ := by
  simp [broadcastLoop, hf]

theorem broadcastLoop_cons_some (fail : Int → Option String) (v : Int) (rest : List Int)
    (st : Finset Int) (e : String) (hf : fail v = some e) :
    broadcastLoop fail (v :: rest) st =
      ⟨(broadcastLoop fail rest (if permanentFailure e then st.erase v else st)).successful_sends,
        (broadcastLoop fail rest (if permanentFailure e then st.erase v else st)).failed_sends + 1,
        (broadcastLoop fail rest (if permanentFailure e then st.erase v else st)).users,
        v :: (broadcastLoop fail rest
          (if permanentFailure e then st.erase v else st)).attempted⟩ := by
  simp [broadcastLoop, hf]

/-- Membership in the live store after the loop: an identifier survives iff it
was in the initial store and is not an attempted identifier whose delivery
outcome matches a permanent-failure substring. -/
theorem mem_broadcastLoop_users (fail : Int → Option String) (l : List Int)
    (st : Finset Int) (u : Int) :
    u ∈ (broadcastLoop fail l st).users ↔
      u ∈ st ∧ ¬(u ∈ l ∧ permDrop fail u = true) := by
  induction l generalizing st with
  | nil => simp [broadcastLoop]
  | cons v rest ih =>
    cases hf : fail v with
    | none =>
      rw [broadcastLoop_cons_none fail v rest st hf]
      by_cases huv : u = v
      · subst huv
        simp [ih, permDrop, hf, List.mem_cons]
      · simp only [ih, List.mem_cons, huv, false_or]
    | some e =>
      rw [broadcastLoop_cons_some fail v rest st e hf]
      by_cases hp : permanentFailure e
      · simp only [if_pos hp]
        by_cases huv : u = v
        · subst huv
          simp [ih, permDrop, hf, hp, List.mem_cons]
        · simp only [ih, Finset.mem_erase, List.mem_cons, ne_eq, huv,
            not_false_eq_true, true_and, false_or]
      · simp only [if_neg hp]
        by_cases huv : u = v
        · subst huv
          simp [ih, permDrop, hf, hp, List.mem_cons]
        · simp only [ih, List.mem_cons, huv, false_or]

/-- The two counters and the attempt trace of the loop: successes and
failures count the delivery outcomes over the snapshot, and every identifier
of the snapshot is attempted, in order. -/
theorem broadcastLoop_counts (fail : Int → Option String) (l : List Int)
    (st : Finset Int) :
    (broadcastLoop fail l st).successful_sends = l.countP (fun u => (fail u).isNone) ∧
    (broadcastLoop fail l st).failed_sends = l.countP (fun u => (fail u).isSome) ∧
    (broadcastLoop fail l st).attempted = l := by
  induction l generalizing st with
  | nil => simp [broadcastLoop]
  | cons v rest ih =>
    cases hf : fail v with
    | none =>
      rw [broadcastLoop_cons_none fail v rest st hf]
      simp [List.countP_cons, hf, (ih st).1, (ih st).2.1, (ih st).2.2]
    | some e =>
      rw [broadcastLoop_cons_some fail v rest st e hf]
      have ih' := ih (if permanentFailure e then st.erase v else st)
      simp [List.countP_cons, hf, ih'.1, ih'.2.1, ih'.2.2]

/-! ### C1: pruning exactly on permanent-failure texts -/

/-- C1: during a broadcast over a snapshot of the store, an identifier is
removed from the store iff its delivery failed with an error text that,
lowercased, contains "bot was blocked" or "user not found"; and the failure
counter counts every failed delivery, matching or not, so a non-matching
failure is counted yet leaves the identifier stored. -/
theorem broadcast_prunes_iff_permanent (fail : Int → Option String)
    (snapshot : List Int) (st : Finset Int) (u : Int)
    (hnd : snapshot.Nodup) (hsnap : snapshot.toFinset = st) (hu : u ∈ st) :
    (u ∉ (broadcast_to_users fail snapshot st).outcome.users ↔
      ∃ e, fail u = some e ∧ permanentFailure e = true) ∧
    (broadcast_to_users fail snapshot st).outcome.failed_sends =
      snapshot.countP (fun v => (fail v).isSome) := by
  refine ⟨?_, (broadcastLoop_counts fail snapshot st).2.1⟩
  have hmem : u ∈ snapshot := by
    rw [← List.mem_toFinset, hsnap]
    exact hu
  rw [show (broadcast_to_users fail snapshot st).outcome = broadcastLoop fail snapshot st
    from rfl, mem_broadcastLoop_users fail snapshot st u]
  constructor
  · intro h
    have hpd : permDrop fail u = true := by
      by_contra hc
      exact h ⟨hu, fun ⟨_, hq⟩ => hc hq⟩
    revert hpd
    unfold permDrop
    cases hfu : fail u with
    | none => intro h0; exact absurd h0 (by simp)
    | some e => intro hpe; exact ⟨e, rfl, hpe⟩
  · rintro ⟨e, hfu, hpe⟩ ⟨_, hno⟩
    exact hno ⟨hmem, by unfold permDrop; rw [hfu]; exact hpe⟩

/-- Witness for C1: store `{1,2}`, snapshot `[1,2]`, identifier 2 failing
with a blocked-text error. -/
theorem broadcast_prunes_iff_permanent_witness :
    ([1, 2] : List Int).Nodup ∧
    ([1, 2] : List Int).toFinset = ({1, 2} : Finset Int) ∧
    (2 : Int) ∈ ({1, 2} : Finset Int) ∧
    (((2 : Int) ∉ (broadcast_to_users
        (fun v => if v = 2 then some "Forbidden: bot was blocked by the user" else none)
        [1, 2] ({1, 2} : Finset Int)).outcome.users ↔
      ∃ e, (fun v => if v = (2 : Int) then
          some "Forbidden: bot was blocked by the user" else none) 2 = some e ∧
        permanentFailure e = true) ∧
    (broadcast_to_users
        (fun v => if v = 2 then some "Forbidden: bot was blocked by the user" else none)
        [1, 2] ({1, 2} : Finset Int)).outcome.failed_sends =
      ([1, 2] : List Int).countP
        (fun v => ((fun w => if w = (2 : Int) then
          some "Forbidden: bot was blocked by the user" else none) v).isSome)) :=
  ⟨by decide, by decide, by decide,
    broadcast_prunes_iff_permanent
      (fun v => if v = 2 then some "Forbidden: bot was blocked by the user" else none)
      [1, 2] {1, 2} 2 (by decide) (by decide) (by decide)⟩

/-- Shared helper: success outcomes and failure outcomes over a snapshot
partition its length. -/
theorem countP_isNone_add_isSome (fail : Int → Option String) (l : List Int) :
    l.countP (fun v => (fail v).isNone) + l.countP (fun v => (fail v).isSome) =
      l.length := by
  induction l with
  | nil => rfl
  | cons v rest ih =>
    cases hf : fail v <;> simp [List.countP_cons, hf] <;> omega

/-! ### C7: no failure aborts the loop -/

/-- C7: the loop runs to completion whatever the delivery outcomes: every
identifier of the snapshot (one occurrence per stored identifier) is
attempted, in the snapshot's order, and the success and failure counters sum
to the size of the snapshot. -/
theorem broadcast_attempts_all (fail : Int → Option String) (snapshot : List Int)
    (st : Finset Int) (hnd : snapshot.Nodup) (hsnap : snapshot.toFinset = st) :
    (broadcastLoop fail snapshot st).attempted = snapshot ∧
    (∀ u ∈ st, (broadcastLoop fail snapshot st).attempted.count u = 1) ∧
    (broadcastLoop fail snapshot st).successful_sends +
      (broadcastLoop fail snapshot st).failed_sends = st.card := by
  obtain ⟨hs, hf, ha⟩ := broadcastLoop_counts fail snapshot st
  refine ⟨ha, fun u hu => ?_, ?_⟩
  · rw [ha]
    refine List.count_eq_one_of_mem hnd ?_
    rw [← List.mem_toFinset, hsnap]
    exact hu
  · rw [hs, hf, ← hsnap, List.toFinset_card_of_nodup hnd]
    exact countP_isNone_add_isSome fail snapshot

/-- Witness for C7: snapshot `[1,2,3]` of `{1,2,3}` with one failing
delivery. -/
theorem broadcast_attempts_all_witness :
    ([1, 2, 3] : List Int).Nodup ∧
    ([1, 2, 3] : List Int).toFinset = ({1, 2, 3} : Finset Int) ∧
    ((broadcastLoop (fun v => if v = 2 then some "Timed out" else none)
        [1, 2, 3] ({1, 2, 3} : Finset Int)).attempted = [1, 2, 3] ∧
    (∀ u ∈ ({1, 2, 3} : Finset Int),
      (broadcastLoop (fun v => if v = 2 then some "Timed out" else none)
        [1, 2, 3] ({1, 2, 3} : Finset Int)).attempted.count u = 1) ∧
    (broadcastLoop (fun v => if v = 2 then some "Timed out" else none)
        [1, 2, 3] ({1, 2, 3} : Finset Int)).successful_sends +
      (broadcastLoop (fun v => if v = 2 then some "Timed out" else none)
        [1, 2, 3] ({1, 2, 3} : Finset Int)).failed_sends =
      ({1, 2, 3} : Finset Int).card) :=
  ⟨by decide, by decide,
    broadcast_attempts_all (fun v => if v = 2 then some "Timed out" else none)
      [1, 2, 3] {1, 2, 3} (by decide) (by decide)⟩

/-! ### C10: a broadcast never adds identifiers -/

/-- C10: for every initial store, every snapshot and every assignment of
delivery outcomes, both the store at the end of the loop and the set handed
to `save_users` are subsets of the initial store: a broadcast only ever
removes identifiers. -/
theorem broadcast_never_adds (fail : Int → Option String) (snapshot : List Int)
    (st : Finset Int) :
    (broadcast_to_users fail snapshot st).outcome.users ⊆ st ∧
    (broadcast_to_users fail snapshot st).saved ⊆ st := by
  have h : (broadcastLoop fail snapshot st).users ⊆ st := fun u hu =>
    ((mem_broadcastLoop_users fail snapshot st u).1 hu).1
  exact ⟨h, h⟩

/-! ### C2: the {1,2,3} broadcast scenario -/

/-- C2: over the store `{1,2,3}` — whatever order the set copy is iterated
in — with deliveries to 1 and 3 succeeding and the delivery to 2 failing
with "bot was blocked by the user", the broadcast ends with 2 successes, 1
failure, the live store pruned to `{1,3}`, exactly `{1,3}` handed to
`save_users`, and the status message edited to `result_text 2 1 2`, whose
text contains "Successful: 2", "Failed: 1" and "Active users: 2". -/
theorem broadcast_scenario_123 (snapshot : List Int) (hnd : snapshot.Nodup)
    (hsnap : snapshot.toFinset = ({1, 2, 3} : Finset Int)) :
    broadcast_to_users failC2 snapshot ({1, 2, 3} : Finset Int) =
      ⟨⟨2, 1, ({1, 3} : Finset Int), snapshot⟩, ({1, 3} : Finset Int),
        result_text 2 1 2⟩ ∧
    strContains (result_text 2 1 2) "Successful: 2" = true ∧
    strContains (result_text 2 1 2) "Failed: 1" = true ∧
    strContains (result_text 2 1 2) "Active users: 2" = true := by
  have hperm : snapshot.Perm [1, 2, 3] :=
    List.perm_of_nodup_nodup_toFinset_eq hnd (by decide)
      (by rw [hsnap]; decide)
  obtain ⟨hs, hf, ha⟩ := broadcastLoop_counts failC2 snapshot {1, 2, 3}
  have hsucc : (broadcastLoop failC2 snapshot {1, 2, 3}).successful_sends = 2 := by
    rw [hs, hperm.countP_eq]
    decide
  have hfail : (broadcastLoop failC2 snapshot {1, 2, 3}).failed_sends = 1 := by
    rw [hf, hperm.countP_eq]
    decide
  have husers : (broadcastLoop failC2 snapshot {1, 2, 3}).users =
      ({1, 3} : Finset Int) := by
    ext u
    rw [mem_broadcastLoop_users]
    have hiff : u ∈ snapshot ↔ u ∈ ({1, 2, 3} : Finset Int) := by
      rw [← List.mem_toFinset, hsnap]
    constructor
    · rintro ⟨hu, hno⟩
      have h123 : u = 1 ∨ u = 2 ∨ u = 3 := by
        simpa [Finset.mem_insert, Finset.mem_singleton] using hu
      rcases h123 with h | h | h
      · subst h; decide
      · subst h
        exact absurd ⟨hiff.2 (by decide), by decide⟩ hno
      · subst h; decide
    · intro hu
      have h13 : u = 1 ∨ u = 3 := by
        simpa [Finset.mem_insert, Finset.mem_singleton] using hu
      rcases h13 with h | h <;> subst h
      · exact ⟨by decide, fun ⟨_, hpd⟩ => by revert hpd; decide⟩
      · exact ⟨by decide, fun ⟨_, hpd⟩ => by revert hpd; decide⟩
  refine ⟨?_, by decide, by decide, by decide⟩
  show (⟨broadcastLoop failC2 snapshot {1, 2, 3},
      (broadcastLoop failC2 snapshot {1, 2, 3}).users,
      result_text (broadcastLoop failC2 snapshot {1, 2, 3}).successful_sends
        (broadcastLoop failC2 snapshot {1, 2, 3}).failed_sends
        (broadcastLoop failC2 snapshot {1, 2, 3}).users.card⟩ : BroadcastResult) = _
  rw [show (broadcastLoop failC2 snapshot {1, 2, 3}) =
      ⟨2, 1, ({1, 3} : Finset Int), snapshot⟩ by
    cases hb : broadcastLoop failC2 snapshot {1, 2, 3}
    rw [hb] at hsucc hfail husers ha
    simp_all]
  simp [show ({1, 3} : Finset Int).card = 2 by decide]

/-- Witness for C2 at the iteration order `[3, 1, 2]`. -/
theorem broadcast_scenario_123_witness :
    ([3, 1, 2] : List Int).Nodup ∧
    ([3, 1, 2] : List Int).toFinset = ({1, 2, 3} : Finset Int) ∧
    (broadcast_to_users failC2 [3, 1, 2] ({1, 2, 3} : Finset Int) =
      ⟨⟨2, 1, ({1, 3} : Finset Int), [3, 1, 2]⟩, ({1, 3} : Finset Int),
        result_text 2 1 2⟩ ∧
    strContains (result_text 2 1 2) "Successful: 2" = true ∧
    strContains (result_text 2 1 2) "Failed: 1" = true ∧
    strContains (result_text 2 1 2) "Active users: 2" = true) :=
  ⟨by decide, by decide,
    broadcast_scenario_123 [3, 1, 2] (by decide) (by decide)⟩

end SMBot
